import Mathlib

/-!
Verification of the two-stage contract-extraction pipeline of the
contract-intelligence-agent repository.  The Python sources are shallowly
embedded: JSON values and Python dicts become an inductive `Json` type and
association lists, fallible Python code returns `Except`, and the outcomes of
the external HTTP/LLM calls are explicit parameters.
-/

/-- A JSON value, as produced by `json.loads` and manipulated by the Python
dict operations in the sources.  Numbers are modelled as integers (all numeric
literals the code handles are whole numbers). -/
inductive Json where
  | null
  | bool (b : Bool)
  | num (n : Int)
  | str (s : String)
  | arr (xs : List Json)
  | obj (fields : List (String × Json))

/-- Lookup in a Python dict (`d[k]` / `k in d`), first matching key. -/
def getKey : List (String × Json) → String → Option Json
  | [], _ => none
  | (k', v) :: rest, k => if k' = k then some v else getKey rest k

/-- `d.get(k, dflt)` on a Python dict. -/
def getD (d : List (String × Json)) (k : String) (dflt : Json) : Json :=
  (getKey d k).getD dflt

/-- `k in d` on a Python dict. -/
def hasKey (d : List (String × Json)) (k : String) : Bool :=
  (getKey d k).isSome

/-- `d[k] = v` on a Python dict: replaces the value of an existing key in
place, otherwise appends the new key at the end (insertion order). -/
def setKey : List (String × Json) → String → Json → List (String × Json)
  | [], k, v => [(k, v)]
  | (k', v') :: rest, k, v =>
    if k' = k then (k', v) :: rest else (k', v') :: setKey rest k v

/-- Python truthiness of a JSON value (`if not x`). -/
def truthy : Json → Bool
  | .null => false
  | .bool b => b
  | .num n => n != 0
  | .str s => s ≠ ""
  | .arr xs => !xs.isEmpty
  | .obj fs => !fs.isEmpty

/-- Python `x == "s"` for a JSON value against a string literal
(`!=` comparison in the sources is its negation). -/
def Json.eqStr : Json → String → Bool
  | .str t, s => t = s
  | _, _ => false

/-- Whether `len(x)` succeeds in Python (sized values only). -/
def pyLenOk : Json → Bool
  | .str _ => true
  | .arr _ => true
  | .obj _ => true
  | _ => false

/-- Whether a JSON value is a list. -/
def Json.isArr : Json → Bool
  | .arr _ => true
  | _ => false

/-- Python `str.strip()` whitespace class (`\s`): space, tab, newline,
carriage return, vertical tab, form feed. -/
def isPySpace (c : Char) : Bool :=
  c = ' ' || c = '\t' || c = '\n' || c = '\r' || c = '\x0b' || c = '\x0c'

/-- Python `str.strip()` on a character list. -/
def pyStrip (l : List Char) : List Char :=
  ((l.dropWhile isPySpace).reverse.dropWhile isPySpace).reverse

/-- Remove every occurrence of a (nonempty) pattern, scanning left to right:
Python `s.replace(pat, '')`.  Fuelled by the input length, which suffices
because each step consumes at least one character. -/
def removeSubAux (pat : List Char) : Nat → List Char → List Char
  | 0, l => l
  | _ + 1, [] => []
  | fuel + 1, c :: rest =>
    if pat.isPrefixOf (c :: rest) && !pat.isEmpty then
      removeSubAux pat fuel ((c :: rest).drop pat.length)
    else
      c :: removeSubAux pat fuel rest

def removeSub (pat l : List Char) : List Char :=
  removeSubAux pat l.length l

/-- Python `pat in s` (substring test). -/
def containsSub (pat : List Char) : List Char → Bool
  | [] => pat.isPrefixOf []
  | l@(_ :: rest) => pat.isPrefixOf l || containsSub pat rest

/-- The markdown-fence cleanup both copies of `parse_contract` apply to the
model's reply:
`content.strip()`, then if it starts with three backticks followed by `json`,
`replace` both fence markers away and strip again; else if it starts with a
bare three-backtick fence, remove that marker and strip again. -/
def stripFencesL (content : List Char) : List Char :=
  let a := pyStrip content
  if ("```json".toList).isPrefixOf a then
    pyStrip (removeSub "```".toList (removeSub "```json".toList a))
  else if ("```".toList).isPrefixOf a then
    pyStrip (removeSub "```".toList a)
  else a

def stripFences (content : String) : String :=
  String.mk (stripFencesL content.data)

/-- A rent-amount character as matched by the regex class `[0-9,]`. -/
def isAmtChar (c : Char) : Bool :=
  c.isDigit || c = ','

/-- Leftmost match of the regex `AED\s*([0-9,]+)` (the captured group), as in
`re.findall(r'AED\s*([0-9,]+)', raw_text)[0]`.  The character classes are
pairwise disjoint from the literal parts, so maximal munch coincides with the
backtracking semantics. -/
def aedScan : List Char → Option (List Char)
  | [] => none
  | l@(_ :: rest) =>
    if l.take 3 = ['A', 'E', 'D'] then
      let amt := ((l.drop 3).dropWhile isPySpace).takeWhile isAmtChar
      if amt.isEmpty then aedScan rest else some amt
    else aedScan rest

/-- Leftmost match of `(\d+)\s*cheque` (the captured digits) on the lowered
text, as in `re.findall(r'(\d+)\s*cheque', raw_text.lower())[0]`. -/
def chequeScan : List Char → Option (List Char)
  | [] => none
  | l@(c :: rest) =>
    if c.isDigit then
      let ds := l.takeWhile Char.isDigit
      if ("cheque".toList).isPrefixOf ((l.drop ds.length).dropWhile isPySpace) then
        some ds
      else chequeScan rest
    else chequeScan rest

/-- A ten-character window matching `\d{4}-\d{2}-\d{2}`. -/
def dateAt (l : List Char) : Bool :=
  let m := l.take 10
  m.length = 10 && (m.take 4).all Char.isDigit && m.get? 4 = some '-' &&
    ((m.drop 5).take 2).all Char.isDigit && m.get? 7 = some '-' &&
    (m.drop 8).all Char.isDigit

/-- All non-overlapping matches of `\d{4}-\d{2}-\d{2}` in scan order, as in
`re.findall(r'(\d{4}-\d{2}-\d{2})', raw_text)`.  Fuelled by the input
length. -/
def dateScanAux : Nat → List Char → List (List Char)
  | 0, _ => []
  | _ + 1, [] => []
  | fuel + 1, l@(_ :: rest) =>
    if dateAt l then l.take 10 :: dateScanAux fuel (l.drop 10)
    else dateScanAux fuel rest

def dateScan (l : List Char) : List (List Char) :=
  dateScanAux l.length l

/-! ## Contract Structuring Service
(`src/src/parser/contract_intelligence.py` and `src/api/contract_intelligence.py`) -/

/-- The Python exceptions the structuring code can raise: an error out of the
chat-completion client, `json.JSONDecodeError` from `json.loads`,
`AttributeError` from `.get` on a non-dict, and `TypeError` from item
assignment on a non-dict. -/
inductive PyExc where
  | apiError (msg : String)
  | jsonDecodeError
  | attributeError
  | typeError

/-- The outcome of the network round trip to the chat-completion endpoint:
either an exception out of the client, or the (already `.strip()`-ready) text
content of the model's reply. -/
inductive LLMOutcome where
  | apiError (msg : String)
  | response (content : String)

/-- `ContractIntelligence.__init__` in both copies: stores the client built
from the `OPENAI_API_KEY` environment value (possibly absent) and the fixed
model name.  The external client constructor is modelled as returning a
handle; the key it captured is what the later completion call uses. -/
structure ContractIntelligence where
  apiKey : Option String
  model : String

def ContractIntelligence.init (envKey : Option String) : ContractIntelligence :=
  { apiKey := envKey, model := "gpt-4o-mini" }

/-- The external `client.chat.completions.create` call.  Modelled from the
spec for the credential-free case: the remote completion API rejects a call
made without an API key, so with no key the call yields an error; with a key
the network outcome is the given one.  (The spec: absence of the LLM key must
force the Structuring Service into permanent fallback mode.) -/
def callLLM (key : Option String) (net : LLMOutcome) : LLMOutcome :=
  match key with
  | none => .apiError "missing OPENAI_API_KEY"
  | some _ => net

/-- The successful-decode tail of `parse_contract`, identical in both copies:
`contract_data = analysis_result.get("contract_data", {})`, then the four
metadata/item assignments, then the two `.get`-with-default copies of
`rental_events` and `completeness_analysis` from the decoded reply. -/
def buildSuccess (now : String) (cdf fields : List (String × Json)) :
    List (String × Json) :=
  let d := setKey cdf "parsed_at" (.str now)
  let d := setKey d "ai_model" (.str "gpt-4o-mini")
  let d := setKey d "confidence" (.str "high")
  let d := setKey d "rental_events" (getD fields "rental_events" (.arr []))
  setKey d "completeness_analysis" (getD fields "completeness_analysis" (.obj []))

/-- The body of `parse_contract` up to (and excluding) its `except` clauses,
identical in both copies: call the API, strip fences, `json.loads`, then the
dict operations of the success tail.  `decode` is the oracle for `json.loads`
(`none` = `JSONDecodeError`); non-dict values where the code calls `.get` or
assigns items raise. -/
def parse_body (decode : String → Option Json) (now : String)
    (key : Option String) (net : LLMOutcome) :
    Except PyExc (List (String × Json)) :=
  match callLLM key net with
  | .apiError m => .error (.apiError m)
  | .response content =>
    match decode (stripFences content) with
    | none => .error .jsonDecodeError
    | some (Json.obj fields) =>
      match getD fields "contract_data" (.obj []) with
      | .obj cdf => .ok (buildSuccess now cdf fields)
      | _ => .error .typeError
    | some _ => .error .attributeError

/-- The fixed dict literal the rule-based fallback of
`src/src/parser/contract_intelligence.py` starts from (`now` is
`datetime.now().isoformat()`). -/
def fallback_base (now : String) : List (String × Json) :=
  [("rent_amount", .null), ("monthly_rent", .null), ("payment_schedule", .null),
   ("lease_start_date", .null), ("lease_end_date", .null),
   ("deposit_amount", .null), ("notice_period_days", .null),
   ("maintenance_responsibility", .null), ("maintenance_limit", .null),
   ("furnished", .null), ("agent_name", .null), ("property_type", .null),
   ("property_location", .null), ("utilities_included", .null),
   ("parking_spaces", .null), ("balcony", .null), ("gym", .null),
   ("pool", .null), ("ejari_number", .null), ("tenant_name", .null),
   ("landlord_name", .null),
   ("parsed_at", .str now),
   ("ai_model", .str "rule_based_fallback"),
   ("confidence", .str "low"),
   ("rental_events", .arr []),
   ("completeness_analysis", .obj
     [("completeness_score", .num 0),
      ("quality_status", .str "poor"),
      ("missing_critical_fields", .arr
        [.str "rent_amount", .str "lease_dates", .str "deposit_amount"]),
      ("missing_important_fields", .arr
        [.str "payment_schedule", .str "notice_period"]),
      ("suggested_improvements", .arr
        [.str "Manual review required - AI parsing failed"]),
      ("validation_notes", .str "Fallback parsing used - limited data extraction")])]

/-- `if "AED" in raw_text:` then the first `AED\s*([0-9,]+)` match populates
`rent_amount` as the f-string `AED {match}`. -/
def fallback_aed (raw : String) (d : List (String × Json)) :
    List (String × Json) :=
  if containsSub ['A', 'E', 'D'] raw.data then
    match aedScan raw.data with
    | some m => setKey d "rent_amount" (.str ("AED " ++ String.mk m))
    | none => d
  else d

/-- `if "cheque" in raw_text.lower():` then the first `(\d+)\s*cheque` match
populates `payment_schedule` as `{n} cheques`. -/
def fallback_cheque (raw : String) (d : List (String × Json)) :
    List (String × Json) :=
  let low := raw.data.map Char.toLower
  if containsSub "cheque".toList low then
    match chequeScan low with
    | some c => setKey d "payment_schedule" (.str (String.mk c ++ " cheques"))
    | none => d
  else d

/-- If at least two `\d{4}-\d{2}-\d{2}` matches exist, the first two populate
the lease dates. -/
def fallback_dates (raw : String) (d : List (String × Json)) :
    List (String × Json) :=
  match dateScan raw.data with
  | a :: b :: _ =>
    setKey (setKey d "lease_start_date" (.str (String.mk a)))
      "lease_end_date" (.str (String.mk b))
  | _ => d

/-- `ContractIntelligence._fallback_parsing` of
`src/src/parser/contract_intelligence.py`.  Its body performs only string
scans and dict updates, none of which can raise, so it is embedded as a total
function; the source's own `except` clause (whose dict is `fallback_error`
below) is unreachable. -/
def fallback_parsing (now raw : String) : List (String × Json) :=
  fallback_dates raw (fallback_cheque raw (fallback_aed raw (fallback_base now)))

/-- The dict built by the `except` clause inside `_fallback_parsing` of
`src/src/parser/contract_intelligence.py` (lines 451-465). -/
def fallback_error (now errMsg : String) : List (String × Json) :=
  [("error", .str errMsg),
   ("parsed_at", .str now),
   ("rental_events", .arr []),
   ("completeness_analysis", .obj
     [("completeness_score", .num 0),
      ("quality_status", .str "poor"),
      ("missing_critical_fields", .arr [.str "all"]),
      ("missing_important_fields", .arr [.str "all"]),
      ("suggested_improvements", .arr
        [.str "Manual review required - parsing failed"]),
      ("validation_notes", .str "Parsing error occurred")])]

/-- `ContractIntelligence.parse_contract` of
`src/src/parser/contract_intelligence.py`: the body runs under an outer
`except Exception` and an inner `except json.JSONDecodeError`, both of which
divert to `_fallback_parsing(raw_text)`.  The result is `Except` so that a
hypothetical escaped exception would be visible as `.error`. -/
def parse_contract (decode : String → Option Json) (now : String)
    (key : Option String) (net : LLMOutcome) (raw : String) :
    Except PyExc (List (String × Json)) :=
  match parse_body decode now key net with
  | .ok d => .ok d
  | .error .jsonDecodeError => .ok (fallback_parsing now raw)
  | .error _ => .ok (fallback_parsing now raw)

/-- `ContractIntelligence._fallback_parsing` of
`src/api/contract_intelligence.py`: a fixed dict (its `raw_text` argument is
unused). -/
def api_fallback_parsing (now : String) : List (String × Json) :=
  [("contract_data", .obj
     [("property", .obj
        [("building", .str "Unknown"), ("unit", .str "Unknown"),
         ("location", .str "Unknown")]),
      ("parties", .obj
        [("landlord", .obj [("name", .str "Unknown")]),
         ("tenant", .obj [("name", .str "Unknown")])]),
      ("lease", .obj
        [("start_date", .str "Unknown"), ("end_date", .str "Unknown")]),
      ("rent", .obj [("annual_aed", .num 0), ("monthly_aed", .num 0)]),
      ("parsed_at", .str now),
      ("ai_model", .str "fallback"),
      ("confidence", .str "low")]),
   ("rental_events", .arr []),
   ("completeness_analysis", .obj
     [("completeness_score", .num 0),
      ("quality_status", .str "failed"),
      ("missing_critical", .arr [.str "all_fields"]),
      ("actionable_gaps", .arr [])])]

/-- `ContractIntelligence.parse_contract` of
`src/api/contract_intelligence.py`: same body as the `src/src/parser` copy
(`parse_body`), but every exception (`json.JSONDecodeError` or `Exception`)
diverts to its own `_fallback_parsing`. -/
def api_parse_contract (decode : String → Option Json) (now : String)
    (key : Option String) (net : LLMOutcome) :
    Except PyExc (List (String × Json)) :=
  match parse_body decode now key net with
  | .ok d => .ok d
  | .error .jsonDecodeError => .ok (api_fallback_parsing now)
  | .error _ => .ok (api_fallback_parsing now)

/-- Completeness score of a returned analysis dict:
`d["completeness_analysis"]["completeness_score"]` when present. -/
def completenessScore (d : List (String × Json)) : Option Json :=
  match getKey d "completeness_analysis" with
  | some (.obj c) => getKey c "completeness_score"
  | _ => none

/-! ## OCR clients (`src/api/colab_client.py` and `src/colab_client.py`) -/

/-- Outcome of one `requests` round trip: a response with a status code, the
JSON decoding of its body (`none` when `.json()` would raise), and its raw
text; or an exception (network error, timeout, local file error, ...). -/
inductive HttpEnv where
  | response (code : Nat) (body : Option Json) (text : String)
  | exn (msg : String)

/-- `ColabOCRClient.process_contract` of `src/api/colab_client.py`, body
without its `except` clause: on a 200 status return the decoded body verbatim
(a failed `.json()` raises), otherwise return the
`{"text": "", "error": "HTTP <code>"}` dict. -/
def process_contract_body (env : HttpEnv) : Except String Json :=
  match env with
  | .exn m => .error m
  | .response code body _ =>
    if code = 200 then
      match body with
      | some j => .ok j
      | none => .error "Expecting value"
    else .ok (.obj [("text", .str ""), ("error", .str ("HTTP " ++ toString code))])

/-- `ColabOCRClient.process_contract` with its catch-all `except`, which
converts any exception into `{"text": "", "error": str(e)}`. -/
def process_contract (env : HttpEnv) : Except String Json :=
  match process_contract_body env with
  | .ok j => .ok j
  | .error m => .ok (.obj [("text", .str ""), ("error", .str m)])

/-- `ColabOCRClient.process_file` of `src/colab_client.py`, body without its
`except` clause: a missing file returns the `File not found` dict,
`raise_for_status()` raises on a 4xx/5xx status, and otherwise the decoded
body is returned verbatim (a failed `.json()` raises).  The text of the
raised `HTTPError` is modelled as `HTTP error <code>`. -/
def process_file_body (fileExists : Bool) (filePath : String) (env : HttpEnv) :
    Except String Json :=
  if !fileExists then .ok (.obj [("error", .str ("File not found: " ++ filePath))])
  else
    match env with
    | .exn m => .error m
    | .response code body _ =>
      if 400 ≤ code then .error ("HTTP error " ++ toString code)
      else
        match body with
        | some j => .ok j
        | none => .error "Expecting value"

/-- `ColabOCRClient.process_file` with its catch-all `except`, which converts
any exception into `{"error": str(e)}` (note: no `text` key). -/
def process_file (fileExists : Bool) (filePath : String) (env : HttpEnv) :
    Except String Json :=
  match process_file_body fileExists filePath env with
  | .ok j => .ok j
  | .error m => .ok (.obj [("error", .str m)])

/-! ## Analyze handlers
(`src/api/index.py` and `src/contract_intelligence_agent.py`) -/

/-- `process_ocr` of `src/api/index.py`: a 200 response returns the decoded
body (after the debug `len(result.get('raw_text', ''))`, which raises on a
non-dict body or an unsized `raw_text` value and is then caught); any other
status or exception yields the `{"raw_text": "", "error": ...}` dict. -/
def process_ocr (env : HttpEnv) : List (String × Json) :=
  match env with
  | .exn m => [("raw_text", .str ""), ("error", .str ("OCR Exception: " ++ m))]
  | .response code body text =>
    if code = 200 then
      match body with
      | some (.obj f) =>
        if pyLenOk (getD f "raw_text" (.str "")) then f
        else [("raw_text", .str ""), ("error", .str "OCR Exception: TypeError")]
      | some _ =>
        [("raw_text", .str ""), ("error", .str "OCR Exception: AttributeError")]
      | none =>
        [("raw_text", .str ""), ("error", .str "OCR Exception: Expecting value")]
    else
      [("raw_text", .str ""),
       ("error", .str ("HTTP " ++ toString code ++ ": " ++ text))]

/-- Observable effects of one run of an analyze request handler: the HTTP
status and JSON body of the response, whether the OCR stage and the
structuring stage were invoked, and whether the temporary upload file was
created and deleted. -/
structure HandlerTrace where
  status : Nat
  body : List (String × Json)
  ocrInvoked : Bool
  aiInvoked : Bool
  tempCreated : Bool
  tempDeleted : Bool

/-- `analyze_contract` of `src/api/index.py` (`POST /api/analyze`).  The
handler never inspects `filename` or the content type.  `readOk` is whether
`await file.read()` / `temp_file.write(content)` succeed; a failure there is
caught by the outer `except` (500) but skips the inner `try/finally`, so the
already-created temporary file is not deleted.  Once the inner `try` is
entered, its `finally` deletes the temporary file on every path.  An OCR
result with a falsy `raw_text` returns 400 with
`{"detail": "OCR processing failed"}` and never calls `analyze_contract_ai`
(abstracted as `ai`). -/
def analyze_contract_index (filename : String) (readOk : Bool) (env : HttpEnv)
    (ai : Json → List (String × Json)) : HandlerTrace :=
  let _ := filename
  if !readOk then
    { status := 500, body := [("detail", .str "Analysis failed: read error")],
      ocrInvoked := false, aiInvoked := false,
      tempCreated := true, tempDeleted := false }
  else
    let ocr := process_ocr env
    if !truthy (.obj ocr) || !truthy (getD ocr "raw_text" .null) then
      { status := 400, body := [("detail", .str "OCR processing failed")],
        ocrInvoked := true, aiInvoked := false,
        tempCreated := true, tempDeleted := true }
    else
      { status := 200, body := ai (getD ocr "raw_text" .null),
        ocrInvoked := true, aiInvoked := true,
        tempCreated := true, tempDeleted := true }

/-- Coarse rendering of a JSON value into an error message (`str(e)` /
f-string interpolation); the composite cases are abbreviated since no theorem
inspects them. -/
def pyRepr : Json → String
  | .null => "None"
  | .bool true => "True"
  | .bool false => "False"
  | .num n => toString n
  | .str s => s
  | .arr _ => "[...]"
  | .obj _ => "[...]"

/-- `analyze_contract` of `src/contract_intelligence_agent.py`
(`POST /analyze`).  `ocr` is the dict returned by
`ColabOCRClient.process_file`; the structuring call is abstracted as `pc`.
Every raised exception (OCR not successful, missing `raw_text` key, `error`
key in the parse result) is caught by the handler's `except`, which returns a
plain `{"error": ..., "status": "failed"}` dict — served by FastAPI with
status 200 — without reaching the `os.unlink(temp_path)` that only the
success path executes. -/
def analyze_contract_agent (ocr : List (String × Json))
    (pc : Json → List (String × Json)) (now : String) : HandlerTrace :=
  if !(getD ocr "extraction_status" .null).eqStr "success" then
    { status := 200,
      body := [("error", .str ("OCR failed: " ++
                 pyRepr (getD ocr "error" (.str "Unknown error")))),
               ("status", .str "failed")],
      ocrInvoked := true, aiInvoked := false,
      tempCreated := true, tempDeleted := false }
  else
    match getKey ocr "raw_text" with
    | none =>
      { status := 200,
        body := [("error", .str "KeyError: raw_text"), ("status", .str "failed")],
        ocrInvoked := true, aiInvoked := false,
        tempCreated := true, tempDeleted := false }
    | some rt =>
      let cd := pc rt
      if hasKey cd "error" then
        { status := 200,
          body := [("error", .str ("AI parsing failed: " ++
                     pyRepr (getD cd "error" .null))),
                   ("status", .str "failed")],
          ocrInvoked := true, aiInvoked := true,
          tempCreated := true, tempDeleted := false }
      else
        { status := 200,
          body := [("status", .str "success"),
                   ("ocr_result", .obj ocr),
                   ("contract_data", .obj cd),
                   ("rental_events", getD cd "rental_events" (.arr [])),
                   ("completeness_analysis", getD cd "completeness_analysis" (.obj [])),
                   ("analysis_time", .str now)],
          ocrInvoked := true, aiInvoked := true,
          tempCreated := true, tempDeleted := true }

/-! ## OCR proxy endpoint (`src/api/ocr.py`) -/

/-- Observable effects of one run of the `POST /ocr` proxy: the response and
whether the two upstream calls (encoder, RunPod) were made. -/
structure ProxyTrace where
  status : Nat
  body : List (String × Json)
  encoderCalled : Bool
  runpodCalled : Bool

/-- `ocr_pdf` of `src/api/ocr.py`.  A filename not ending in `.pdf` is
rejected with 400 before any upstream call; then an empty upload is rejected
with 400; then the encoder and RunPod calls run in sequence, every non-ok
status, missing field, falsy payload, or exception turning into the error
response the source constructs (exceptions reach the catch-all 500). -/
def ocr_pdf (filename : String) (isEmpty : Bool) (enc rp : HttpEnv) : ProxyTrace :=
  if !((".pdf".toList).isSuffixOf filename.data) then
    { status := 400, body := [("error", .str "Only PDF files are supported")],
      encoderCalled := false, runpodCalled := false }
  else if isEmpty then
    { status := 400, body := [("error", .str "Empty file")],
      encoderCalled := false, runpodCalled := false }
  else
    match enc with
    | .exn m =>
      { status := 500, body := [("error", .str m)],
        encoderCalled := true, runpodCalled := false }
    | .response code body text =>
      if 400 ≤ code then
        { status := code, body := [("error", .str ("Encoder error: " ++ text))],
          encoderCalled := true, runpodCalled := false }
      else
        match body with
        | none =>
          { status := 500, body := [("error", .str "Expecting value")],
            encoderCalled := true, runpodCalled := false }
        | some (.obj ef) =>
          -- `enc_json.get("base64")` on a non-dict raises; the `.get` default
          -- is None, so a missing or empty value hits the falsy check below
          if !truthy (getD ef "base64" .null) then
            { status := 500, body := [("error", .str "Encoder did not return base64")],
              encoderCalled := true, runpodCalled := false }
          else
            match rp with
            | .exn m =>
              { status := 500, body := [("error", .str m)],
                encoderCalled := true, runpodCalled := true }
            | .response rcode rbody rtext =>
              if 400 ≤ rcode then
                { status := rcode,
                  body := [("error", .str ("RunPod API error: " ++ rtext))],
                  encoderCalled := true, runpodCalled := true }
              else
                match rbody with
                | none =>
                  { status := 500, body := [("error", .str "Expecting value")],
                    encoderCalled := true, runpodCalled := true }
                | some (.obj rf) =>
                  match getD rf "output" (.obj rf) with
                  | .obj of =>
                    if !truthy (.obj of) || !truthy (getD of "success" .null) then
                      { status := 500,
                        body := [("error", getD of "error" (.str "OCR processing failed"))],
                        encoderCalled := true, runpodCalled := true }
                    else
                      { status := 200,
                        body := [("ocr_text", getD of "ocr_text" (.str ""))],
                        encoderCalled := true, runpodCalled := true }
                  | _ =>
                    { status := 500, body := [("error", .str "AttributeError")],
                      encoderCalled := true, runpodCalled := true }
                | some _ =>
                  { status := 500, body := [("error", .str "AttributeError")],
                    encoderCalled := true, runpodCalled := true }
        | some _ =>
          { status := 500, body := [("error", .str "AttributeError")],
            encoderCalled := true, runpodCalled := false }

/-! ## Concrete oracles used to instantiate the embeddings on specific runs -/

/-- A structuring stage that returns an empty dict (used to instantiate the
handler embeddings where the structuring result is irrelevant). -/
def pcEmpty : Json → List (String × Json) := fun _ => []

/-- A `json.loads` oracle on which every decode fails. -/
def decodeNone : String → Option Json := fun _ => none

/-- A `json.loads` oracle standing for a model reply that is valid JSON and
reports a completeness score of 150. -/
def decode150 : String → Option Json := fun _ =>
  some (.obj [("contract_data", .obj []),
              ("completeness_analysis", .obj [("completeness_score", .num 150)])])

/-- A `json.loads` oracle standing for a model reply that is valid JSON but
carries a number, not a list, under `rental_events`. -/
def decodeBadEvents : String → Option Json := fun _ =>
  some (.obj [("contract_data", .obj []), ("rental_events", .num 42)])

/-- An OCR-client round trip that failed: an exception, or an error status
(4xx/5xx, the range `raise_for_status` raises for). -/
def isFailEnv : HttpEnv → Bool
  | .exn _ => true
  | .response code _ _ => 400 ≤ code

/-! ## Dict lemmas -/

theorem getKey_setKey_self (d : List (String × Json)) (k : String) (v : Json) :
    getKey (setKey d k v) k = some v := by
  induction d with
  | nil => simp [setKey, getKey]
  | cons p rest ih =>
    obtain ⟨k', v'⟩ := p
    by_cases h : k' = k
    · simp [setKey, getKey, h]
    · simp [setKey, getKey, h, ih]

theorem getKey_setKey_ne (d : List (String × Json)) (k k' : String) (v : Json)
    (h : k' ≠ k) : getKey (setKey d k v) k' = getKey d k' := by
  induction d with
  | nil =>
    simp only [setKey, getKey]
    rw [if_neg (fun e => h e.symm)]
  | cons p rest ih =>
    obtain ⟨ka, va⟩ := p
    by_cases hk : ka = k
    · subst hk
      simp only [setKey, if_pos rfl, getKey]
      rw [if_neg (fun e => h e.symm), if_neg (fun e => h e.symm)]
    · simp only [setKey, if_neg hk, getKey]
      by_cases hk' : ka = k'
      · simp [hk']
      · simp [hk', ih]

theorem getKey_fallback_aed_ne (raw : String) (d : List (String × Json))
    (k : String) (h : k ≠ "rent_amount") :
    getKey (fallback_aed raw d) k = getKey d k := by
  unfold fallback_aed
  split
  · split
    · exact getKey_setKey_ne d "rent_amount" k _ h
    · rfl
  · rfl

theorem getKey_fallback_cheque_ne (raw : String) (d : List (String × Json))
    (k : String) (h : k ≠ "payment_schedule") :
    getKey (fallback_cheque raw d) k = getKey d k := by
  unfold fallback_cheque
  simp only
  split
  · split
    · exact getKey_setKey_ne d "payment_schedule" k _ h
    · rfl
  · rfl

theorem getKey_fallback_dates_ne (raw : String) (d : List (String × Json))
    (k : String) (h1 : k ≠ "lease_start_date") (h2 : k ≠ "lease_end_date") :
    getKey (fallback_dates raw d) k = getKey d k := by
  unfold fallback_dates
  split
  · rw [getKey_setKey_ne _ _ _ _ h2, getKey_setKey_ne _ _ _ _ h1]
  · rfl

theorem getKey_fallback_parsing (now raw : String) (k : String)
    (h1 : k ≠ "rent_amount") (h2 : k ≠ "payment_schedule")
    (h3 : k ≠ "lease_start_date") (h4 : k ≠ "lease_end_date") :
    getKey (fallback_parsing now raw) k = getKey (fallback_base now) k := by
  unfold fallback_parsing
  rw [getKey_fallback_dates_ne _ _ _ h3 h4, getKey_fallback_cheque_ne _ _ _ h2,
    getKey_fallback_aed_ne _ _ _ h1]

/-! ## Structure of `parse_body` results -/

theorem parse_body_ok (decode : String → Option Json) (now : String)
    (key : Option String) (net : LLMOutcome) (d : List (String × Json))
    (h : parse_body decode now key net = .ok d) :
    ∃ cdf fields, d = buildSuccess now cdf fields := by
  unfold parse_body at h
  split at h
  · exact Except.noConfusion h
  · split at h
    · exact Except.noConfusion h
    · split at h
      · injection h with h'
        exact ⟨_, _, h'.symm⟩
      · exact Except.noConfusion h
    · exact Except.noConfusion h

theorem getKey_buildSuccess_completeness (now : String)
    (cdf fields : List (String × Json)) :
    getKey (buildSuccess now cdf fields) "completeness_analysis" =
      some (getD fields "completeness_analysis" (.obj [])) := by
  unfold buildSuccess
  exact getKey_setKey_self _ _ _

theorem getKey_buildSuccess_events (now : String)
    (cdf fields : List (String × Json)) :
    getKey (buildSuccess now cdf fields) "rental_events" =
      some (getD fields "rental_events" (.arr [])) := by
  unfold buildSuccess
  rw [getKey_setKey_ne _ _ _ _ (by decide)]
  exact getKey_setKey_self _ _ _

theorem getKey_buildSuccess_parsed_at (now : String)
    (cdf fields : List (String × Json)) :
    getKey (buildSuccess now cdf fields) "parsed_at" = some (.str now) := by
  unfold buildSuccess
  rw [getKey_setKey_ne _ _ _ _ (by decide), getKey_setKey_ne _ _ _ _ (by decide),
    getKey_setKey_ne _ _ _ _ (by decide), getKey_setKey_ne _ _ _ _ (by decide)]
  exact getKey_setKey_self _ _ _

/-! ## Scan lemmas -/

theorem aedScan_some_contains (l m : List Char) (h : aedScan l = some m) :
    containsSub ['A', 'E', 'D'] l = true := by
  induction l with
  | nil => exact absurd h (by simp [aedScan])
  | cons c rest ih =>
    unfold aedScan at h
    by_cases hp : (c :: rest).take 3 = ['A', 'E', 'D']
    · have hpre : (['A', 'E', 'D'] : List Char).isPrefixOf (c :: rest) = true := by
        rw [List.isPrefixOf_iff_prefix, List.prefix_iff_eq_take]
        exact hp.symm
      simp [containsSub, hpre]
    · rw [if_neg hp] at h
      simp [containsSub, ih h]

/-! ## OCR client totality and failure shape -/

theorem process_contract_isOk (env : HttpEnv) :
    (process_contract env).isOk = true := by
  unfold process_contract
  cases h : process_contract_body env <;> rfl

theorem process_file_isOk (fileExists : Bool) (filePath : String)
    (env : HttpEnv) : (process_file fileExists filePath env).isOk = true := by
  unfold process_file
  cases h : process_file_body fileExists filePath env <;> rfl

theorem process_contract_fail (code : Nat) (body : Option Json) (text : String)
    (h : 400 ≤ code) :
    process_contract (.response code body text) =
      .ok (.obj [("text", .str ""), ("error", .str ("HTTP " ++ toString code))]) := by
  have hne : ¬ code = 200 := by omega
  simp only [process_contract, process_contract_body, if_neg hne]

theorem process_file_fail (path : String) (code : Nat) (body : Option Json)
    (text : String) (h : 400 ≤ code) :
    process_file true path (.response code body text) =
      .ok (.obj [("error", .str ("HTTP error " ++ toString code))]) := by
  simp only [process_file, process_file_body, Bool.not_true, Bool.false_eq_true,
    if_false, if_pos h]

/-! ## Claim theorems -/

/-- C1: the Contract Structuring Service never propagates an exception to its
caller: for every `json.loads` behaviour, timestamp, stored API key, network
outcome and input text, both copies of `parse_contract` return a value
(`Except.ok`) — every exception raised by the API call or by JSON decoding is
caught and converted to the fallback analysis. -/
theorem parse_contract_never_raises (decode : String → Option Json)
    (now : String) (key : Option String) (net : LLMOutcome) (raw : String) :
    (parse_contract decode now key net raw).isOk = true ∧
    (api_parse_contract decode now key net).isOk = true := by
  constructor
  · unfold parse_contract
    cases h : parse_body decode now key net with
    | ok d => rfl
    | error e => cases e <;> rfl
  · unfold api_parse_contract
    cases h : parse_body decode now key net with
    | ok d => rfl
    | error e => cases e <;> rfl

/-- C6: with the `OPENAI_API_KEY` environment variable absent, the service
object still constructs (yielding the fixed model name), and every parse
request — in both copies — takes the fallback path, whatever the network
would have answered and whatever the input text is. -/
theorem missing_key_permanent_fallback (decode : String → Option Json)
    (now raw : String) (net : LLMOutcome) :
    (ContractIntelligence.init none).model = "gpt-4o-mini" ∧
    (ContractIntelligence.init none).apiKey = none ∧
    parse_contract decode now (ContractIntelligence.init none).apiKey net raw =
      .ok (fallback_parsing now raw) ∧
    api_parse_contract decode now (ContractIntelligence.init none).apiKey net =
      .ok (api_fallback_parsing now) := by
  exact ⟨rfl, rfl, rfl, rfl⟩

/-- C3: whenever the fence-stripped text of the model's reply fails to decode
as JSON, `parse_contract` returns the fallback analysis: in the
`src/src/parser` copy its completeness score is exactly 0 with
`ai_model = "rule_based_fallback"` and `confidence = "low"`; in the `src/api`
copy its completeness score is exactly 0 and the nested `contract_data`
carries `ai_model = "fallback"` and `confidence = "low"`. -/
theorem malformed_json_fallback (decode : String → Option Json)
    (now s content raw : String)
    (h : decode (stripFences content) = none) :
    parse_contract decode now (some s) (.response content) raw =
      .ok (fallback_parsing now raw) ∧
    completenessScore (fallback_parsing now raw) = some (.num 0) ∧
    getKey (fallback_parsing now raw) "ai_model" = some (.str "rule_based_fallback") ∧
    getKey (fallback_parsing now raw) "confidence" = some (.str "low") ∧
    api_parse_contract decode now (some s) (.response content) =
      .ok (api_fallback_parsing now) ∧
    completenessScore (api_fallback_parsing now) = some (.num 0) ∧
    ∃ cd, getKey (api_fallback_parsing now) "contract_data" = some (.obj cd) ∧
      getKey cd "ai_model" = some (.str "fallback") ∧
      getKey cd "confidence" = some (.str "low") := by
  refine ⟨?_, ?_, ?_, ?_, ?_, ?_, ?_⟩
  · simp only [parse_contract, parse_body, callLLM, h]
  · unfold completenessScore
    rw [getKey_fallback_parsing now raw "completeness_analysis"
      (by decide) (by decide) (by decide) (by decide)]
    rfl
  · rw [getKey_fallback_parsing now raw "ai_model"
      (by decide) (by decide) (by decide) (by decide)]
    rfl
  · rw [getKey_fallback_parsing now raw "confidence"
      (by decide) (by decide) (by decide) (by decide)]
    rfl
  · simp only [api_parse_contract, parse_body, callLLM, h]
  · rfl
  · exact ⟨_, rfl, rfl, rfl⟩

/-- Witness for C3: a concrete run on which the decode hypothesis holds, and
the theorem's first conclusion at that run. -/
theorem malformed_json_fallback_witness :
    decodeNone (stripFences "not json at all") = none ∧
    parse_contract decodeNone "2024-01-01T00:00:00" (some "key")
        (.response "not json at all") "" =
      .ok (fallback_parsing "2024-01-01T00:00:00" "") :=
  ⟨rfl, (malformed_json_fallback decodeNone "2024-01-01T00:00:00" "key"
    "not json at all" "" rfl).1⟩

/-- C4 counterexample: the successful-model path copies the model's
completeness analysis verbatim, so a valid-JSON reply reporting a score of
150 is returned as-is — the score of a returned `ContractAnalysis` is not
confined to [0,100]. -/
theorem completeness_score_unbounded_counterexample :
    Except.map completenessScore
        (parse_contract decode150 "t" (some "key") (.response "reply") "") =
      .ok (some (.num 150)) ∧
    ¬ ((150 : Int) ≤ 100) :=
  ⟨rfl, by decide⟩

/-- C4 (amended): on the fallback paths the completeness score is exactly 0
(hence within [0,100]); in the `src/api` copy the fallback missing-critical
list is the sentinel `["all_fields"]`, while the `src/src/parser` rule-based
fallback lists three specific fields and only its internal-error dict uses
the `"all"` sentinel.  On the successful-model path the completeness analysis
is the model's value copied verbatim (default empty dict), with no clamping
to [0,100]. -/
theorem completeness_score_policy (now now' raw e : String)
    (cdf fields : List (String × Json)) :
    completenessScore (fallback_parsing now raw) = some (.num 0) ∧
    completenessScore (api_fallback_parsing now) = some (.num 0) ∧
    completenessScore (fallback_error now e) = some (.num 0) ∧
    (∃ c, getKey (api_fallback_parsing now) "completeness_analysis" = some (.obj c) ∧
      getKey c "missing_critical" = some (.arr [.str "all_fields"])) ∧
    (∃ c, getKey (fallback_parsing now raw) "completeness_analysis" = some (.obj c) ∧
      getKey c "missing_critical_fields" =
        some (.arr [.str "rent_amount", .str "lease_dates", .str "deposit_amount"])) ∧
    (∃ c, getKey (fallback_error now e) "completeness_analysis" = some (.obj c) ∧
      getKey c "missing_critical_fields" = some (.arr [.str "all"])) ∧
    getKey (buildSuccess now' cdf fields) "completeness_analysis" =
      some (getD fields "completeness_analysis" (.obj [])) := by
  have hca := getKey_fallback_parsing now raw "completeness_analysis"
    (by decide) (by decide) (by decide) (by decide)
  refine ⟨?_, rfl, rfl, ⟨_, rfl, rfl⟩, ?_, ⟨_, rfl, rfl⟩, ?_⟩
  · unfold completenessScore
    rw [hca]
    rfl
  · rw [hca]
    exact ⟨_, rfl, rfl⟩
  · exact getKey_buildSuccess_completeness now' cdf fields

/-- C9: when no LLM key is reachable (so every parse request takes the
rule-based fallback), an input text on which the `AED\s*([0-9,]+)` scan
finds a first amount yields a result whose `rent_amount` is populated with
that literal match (not left null). -/
theorem aed_fallback_rent (decode : String → Option Json) (now raw : String)
    (net : LLMOutcome) (m : List Char)
    (h : aedScan raw.data = some m) :
    ∃ d, parse_contract decode now none net raw = Except.ok d ∧
      getKey d "rent_amount" = some (.str ("AED " ++ String.mk m)) := by
  refine ⟨fallback_parsing now raw, rfl, ?_⟩
  unfold fallback_parsing
  rw [getKey_fallback_dates_ne _ _ _ (by decide) (by decide),
    getKey_fallback_cheque_ne _ _ _ (by decide)]
  unfold fallback_aed
  rw [if_pos (aedScan_some_contains _ _ h), h]
  exact getKey_setKey_self _ _ _

/-- Witness for C9: a concrete text containing `AED 48,000`, run with no API
key. -/
theorem aed_fallback_rent_witness :
    aedScan "Annual rent AED 48,000 payable".data = some "48,000".toList ∧
    ∃ d, parse_contract decodeNone "t" none (.response "x")
        "Annual rent AED 48,000 payable" = Except.ok d ∧
      getKey d "rent_amount" = some (.str ("AED " ++ String.mk "48,000".toList)) :=
  ⟨rfl, aed_fallback_rent decodeNone "t" "Annual rent AED 48,000 payable"
    (.response "x") "48,000".toList rfl⟩

/-- C10 counterexample: on the successful-model path the `rental_events`
value is copied verbatim from the model's JSON, so a reply carrying the
number 42 under that key yields a result whose `rental_events` is not a
list. -/
theorem rental_events_not_list_counterexample :
    Except.map (fun d => getKey d "rental_events")
        (parse_contract decodeBadEvents "t" (some "key") (.response "reply") "") =
      .ok (some (.num 42)) ∧
    (Json.num 42).isArr = false :=
  ⟨rfl, rfl⟩

/-- C10 (amended): every dict returned by the `src/src/parser`
`parse_contract` carries the keys `parsed_at`, `rental_events` and
`completeness_analysis`; on the rule-based fallback path and the
fallback-internal-error dict, `rental_events` is a list and
`completeness_analysis` a dict, while on the successful-model path those two
values are exactly the model's values at those keys (defaulting to `[]` and
an empty dict), with no type check applied. -/
theorem parse_result_keys :
    (∀ (decode : String → Option Json) (now : String) (key : Option String)
        (net : LLMOutcome) (raw : String), ∃ d,
      parse_contract decode now key net raw = Except.ok d ∧
      hasKey d "parsed_at" = true ∧ hasKey d "rental_events" = true ∧
      hasKey d "completeness_analysis" = true) ∧
    (∀ now raw : String,
      (getD (fallback_parsing now raw) "rental_events" .null).isArr = true ∧
      ∃ c, getKey (fallback_parsing now raw) "completeness_analysis" = some (.obj c)) ∧
    (∀ now e : String,
      hasKey (fallback_error now e) "parsed_at" = true ∧
      (getD (fallback_error now e) "rental_events" .null).isArr = true ∧
      ∃ c, getKey (fallback_error now e) "completeness_analysis" = some (.obj c)) ∧
    (∀ (now : String) (cdf fields : List (String × Json)),
      getKey (buildSuccess now cdf fields) "rental_events" =
        some (getD fields "rental_events" (.arr [])) ∧
      getKey (buildSuccess now cdf fields) "completeness_analysis" =
        some (getD fields "completeness_analysis" (.obj []))) := by
  refine ⟨?_, ?_, ?_, ?_⟩
  · intro decode now key net raw
    cases hb : parse_body decode now key net with
    | error e =>
      refine ⟨fallback_parsing now raw, ?_, ?_, ?_, ?_⟩
      · unfold parse_contract
        rw [hb]
        cases e <;> rfl
      · unfold hasKey
        rw [getKey_fallback_parsing now raw "parsed_at"
          (by decide) (by decide) (by decide) (by decide)]
        rfl
      · unfold hasKey
        rw [getKey_fallback_parsing now raw "rental_events"
          (by decide) (by decide) (by decide) (by decide)]
        rfl
      · unfold hasKey
        rw [getKey_fallback_parsing now raw "completeness_analysis"
          (by decide) (by decide) (by decide) (by decide)]
        rfl
    | ok d =>
      obtain ⟨cdf, fields, hd⟩ := parse_body_ok decode now key net d hb
      subst hd
      refine ⟨buildSuccess now cdf fields, ?_, ?_, ?_, ?_⟩
      · unfold parse_contract
        rw [hb]
      · unfold hasKey
        rw [getKey_buildSuccess_parsed_at]
        rfl
      · unfold hasKey
        rw [getKey_buildSuccess_events]
        rfl
      · unfold hasKey
        rw [getKey_buildSuccess_completeness]
        rfl
  · intro now raw
    have hre := getKey_fallback_parsing now raw "rental_events"
      (by decide) (by decide) (by decide) (by decide)
    have hca := getKey_fallback_parsing now raw "completeness_analysis"
      (by decide) (by decide) (by decide) (by decide)
    constructor
    · unfold getD
      rw [hre]
      rfl
    · rw [hca]
      exact ⟨_, rfl⟩
  · intro now e
    exact ⟨rfl, rfl, _, rfl⟩
  · intro now cdf fields
    exact ⟨getKey_buildSuccess_events now cdf fields,
      getKey_buildSuccess_completeness now cdf fields⟩

/-- C2 counterexample: in `src/contract_intelligence_agent.py`, a failed OCR
stage makes the handler return the plain `error`/`status: failed` dict, which
FastAPI serves with HTTP 200 — not a 4xx/5xx status (the structuring stage is
still never invoked and the body has no `contract_data` key). -/
theorem ocr_failure_agent_200_counterexample :
    (analyze_contract_agent [("error", Json.str "connection refused")] pcEmpty "t").aiInvoked
      = false ∧
    hasKey (analyze_contract_agent [("error", Json.str "connection refused")] pcEmpty "t").body
      "contract_data" = false ∧
    (analyze_contract_agent [("error", Json.str "connection refused")] pcEmpty "t").status
      = 200 ∧
    ¬ (400 ≤ (analyze_contract_agent [("error", Json.str "connection refused")] pcEmpty "t").status) :=
  ⟨rfl, rfl, rfl, by decide⟩

/-- C2 (amended): whenever the OCR stage fails, the structuring stage is never
invoked and the response body carries no `contract_data` key; the
`src/api/index.py` handler answers 400, while the
`src/contract_intelligence_agent.py` handler answers 200 with an
`error`/`status: failed` body. -/
theorem ocr_failure_no_structuring (env : HttpEnv)
    (ai pc : Json → List (String × Json)) (filename now : String)
    (ocr : List (String × Json))
    (h1 : truthy (getD (process_ocr env) "raw_text" Json.null) = false)
    (h2 : (getD ocr "extraction_status" Json.null).eqStr "success" = false) :
    (analyze_contract_index filename true env ai).status = 400 ∧
    (analyze_contract_index filename true env ai).aiInvoked = false ∧
    hasKey (analyze_contract_index filename true env ai).body "contract_data" = false ∧
    (analyze_contract_agent ocr pc now).aiInvoked = false ∧
    hasKey (analyze_contract_agent ocr pc now).body "contract_data" = false ∧
    (analyze_contract_agent ocr pc now).status = 200 := by
  have hidx : analyze_contract_index filename true env ai =
      ⟨400, [("detail", .str "OCR processing failed")], true, false, true, true⟩ := by
    simp only [analyze_contract_index, Bool.not_true, Bool.false_eq_true, if_false,
      h1, Bool.not_false, Bool.or_true, if_true]
  have hag : analyze_contract_agent ocr pc now =
      ⟨200, [("error", .str ("OCR failed: " ++ pyRepr (getD ocr "error" (.str "Unknown error")))),
             ("status", .str "failed")], true, false, true, false⟩ := by
    simp only [analyze_contract_agent, h2, Bool.not_false, if_true]
  rw [hidx, hag]
  exact ⟨rfl, rfl, rfl, rfl, rfl, rfl⟩

/-- Witness for C2 (amended): a concrete failed-OCR run through both
handlers. -/
theorem ocr_failure_no_structuring_witness :
    truthy (getD (process_ocr (HttpEnv.exn "refused")) "raw_text" Json.null) = false ∧
    (getD [("error", Json.str "boom")] "extraction_status" Json.null).eqStr "success" = false ∧
    (analyze_contract_index "c.pdf" true (HttpEnv.exn "refused") pcEmpty).status = 400 :=
  ⟨rfl, rfl, (ocr_failure_no_structuring (HttpEnv.exn "refused") pcEmpty pcEmpty
    "c.pdf" "t" [("error", Json.str "boom")] rfl rfl).1⟩

/-- C5 counterexample: the agent handler leaks the temporary file on an OCR
failure (it is created but not deleted), and the index handler leaks it when
reading/writing the upload raises before the inner `try` is entered. -/
theorem temp_file_leak_counterexample :
    (analyze_contract_agent [("error", Json.str "boom")] pcEmpty "t").tempCreated = true ∧
    (analyze_contract_agent [("error", Json.str "boom")] pcEmpty "t").tempDeleted = false ∧
    (analyze_contract_index "a.pdf" false (HttpEnv.exn "x") pcEmpty).tempCreated = true ∧
    (analyze_contract_index "a.pdf" false (HttpEnv.exn "x") pcEmpty).tempDeleted = false :=
  ⟨rfl, rfl, rfl, rfl⟩

/-- C5 (amended): in `src/api/index.py` the temporary file is deleted on
every exit path once the upload was read and written successfully (the
`finally` clause covers the OCR-failure, structuring and success paths); in
`src/contract_intelligence_agent.py` it is deleted exactly on the successful
path — the one whose response body carries `contract_data` — and leaked on
every exception path. -/
theorem temp_file_cleanup (filename : String) (readOk : Bool) (env : HttpEnv)
    (ai pc : Json → List (String × Json)) (ocr : List (String × Json))
    (now : String) :
    (readOk = true → (analyze_contract_index filename readOk env ai).tempDeleted = true) ∧
    (analyze_contract_agent ocr pc now).tempDeleted =
      hasKey (analyze_contract_agent ocr pc now).body "contract_data" := by
  constructor
  · intro hr
    subst hr
    unfold analyze_contract_index
    simp only [Bool.not_true, Bool.false_eq_true, if_false]
    split <;> rfl
  · unfold analyze_contract_agent
    split
    · rfl
    · split
      · rfl
      · simp only []
        split
        · rfl
        · rfl

/-- Witness for C5 (amended): concrete runs of both handlers. -/
theorem temp_file_cleanup_witness :
    (analyze_contract_index "a.pdf" true (HttpEnv.exn "x") pcEmpty).tempDeleted = true ∧
    (analyze_contract_agent [("error", Json.str "boom")] pcEmpty "t").tempDeleted =
      hasKey (analyze_contract_agent [("error", Json.str "boom")] pcEmpty "t").body
        "contract_data" :=
  ⟨(temp_file_cleanup "a.pdf" true (HttpEnv.exn "x") pcEmpty pcEmpty
      [("error", Json.str "boom")] "t").1 rfl,
   (temp_file_cleanup "a.pdf" true (HttpEnv.exn "x") pcEmpty pcEmpty
      [("error", Json.str "boom")] "t").2⟩

/-- C7 counterexample: on a 500 upstream status, `process_file` of
`src/colab_client.py` returns a dict carrying only the error message — it has
no `text` key at all, so the failed result's text field is not the empty
string. -/
theorem ocr_client_missing_text_counterexample :
    process_file true "contract.pdf" (HttpEnv.response 500 none "err") =
      .ok (.obj [("error", Json.str "HTTP error 500")]) ∧
    hasKey [("error", Json.str "HTTP error 500")] "text" = false :=
  ⟨rfl, rfl⟩

/-- C7 (amended): neither OCR client lets an exception escape, and on any
failing round trip (exception, or a 4xx/5xx status) each returns a failure
dict whose `error` field carries the status or message; the `src/api` client's
dict has `text = ""`, while the `src/colab_client.py` dict has no `text` key. -/
theorem ocr_client_failure_result (env : HttpEnv) (path : String) :
    (process_contract env).isOk = true ∧
    (process_file true path env).isOk = true ∧
    (isFailEnv env = true →
      ∃ d, process_contract env = .ok (.obj d) ∧
        getKey d "text" = some (.str "") ∧ hasKey d "error" = true) ∧
    (isFailEnv env = true →
      ∃ d, process_file true path env = .ok (.obj d) ∧
        hasKey d "error" = true ∧ hasKey d "text" = false) := by
  refine ⟨process_contract_isOk env, process_file_isOk true path env, ?_, ?_⟩
  · intro hf
    cases env with
    | exn m => exact ⟨_, rfl, rfl, rfl⟩
    | response code body text =>
      simp only [isFailEnv, decide_eq_true_eq] at hf
      rw [process_contract_fail code body text hf]
      exact ⟨_, rfl, rfl, rfl⟩
  · intro hf
    cases env with
    | exn m => exact ⟨_, rfl, rfl, rfl⟩
    | response code body text =>
      simp only [isFailEnv, decide_eq_true_eq] at hf
      rw [process_file_fail path code body text hf]
      exact ⟨_, rfl, rfl, rfl⟩

/-- Witness for C7 (amended): a concrete 503 round trip. -/
theorem ocr_client_failure_result_witness :
    isFailEnv (HttpEnv.response 503 none "unavailable") = true ∧
    ∃ d, process_contract (HttpEnv.response 503 none "unavailable") = .ok (.obj d) ∧
      getKey d "text" = some (.str "") ∧ hasKey d "error" = true :=
  ⟨rfl, (ocr_client_failure_result (HttpEnv.response 503 none "unavailable")
    "f.pdf").2.2.1 rfl⟩

/-- C8 counterexample: the analyze endpoint of `src/api/index.py` performs no
file-type check: an upload named `contract.txt` is not rejected with 400 —
the upstream OCR stage is invoked and the request proceeds to 200. -/
theorem non_pdf_not_rejected_counterexample :
    (analyze_contract_index "contract.txt" true
        (HttpEnv.response 200 (some (.obj [("raw_text", Json.str "hello")])) "")
        pcEmpty).ocrInvoked = true ∧
    (analyze_contract_index "contract.txt" true
        (HttpEnv.response 200 (some (.obj [("raw_text", Json.str "hello")])) "")
        pcEmpty).status = 200 ∧
    ¬ ((analyze_contract_index "contract.txt" true
        (HttpEnv.response 200 (some (.obj [("raw_text", Json.str "hello")])) "")
        pcEmpty).status = 400) :=
  ⟨rfl, rfl, by decide⟩

/-- C8 (amended): the OCR proxy endpoint (`src/api/ocr.py`) rejects any
upload whose filename does not end in `.pdf` with HTTP 400 and the detail
`Only PDF files are supported`, before either upstream call is made; the
analyze endpoint of `src/api/index.py` performs no file-type check — it
invokes the OCR stage whenever the upload was read, independently of the
filename. -/
theorem non_pdf_rejection (fname fname' : String) (isEmpty : Bool)
    (enc rp env : HttpEnv) (ai : Json → List (String × Json)) (readOk : Bool)
    (h : ((".pdf".toList).isSuffixOf fname.data) = false) :
    (ocr_pdf fname isEmpty enc rp).status = 400 ∧
    (ocr_pdf fname isEmpty enc rp).body =
      [("error", Json.str "Only PDF files are supported")] ∧
    (ocr_pdf fname isEmpty enc rp).encoderCalled = false ∧
    (ocr_pdf fname isEmpty enc rp).runpodCalled = false ∧
    (analyze_contract_index fname' readOk env ai).ocrInvoked = readOk := by
  have hpdf : ocr_pdf fname isEmpty enc rp =
      ⟨400, [("error", Json.str "Only PDF files are supported")], false, false⟩ := by
    simp only [ocr_pdf, h, Bool.not_false, if_true]
  rw [hpdf]
  refine ⟨rfl, rfl, rfl, rfl, ?_⟩
  cases readOk with
  | false => rfl
  | true =>
    unfold analyze_contract_index
    simp only [Bool.not_true, Bool.false_eq_true, if_false]
    split <;> rfl

/-- Witness for C8 (amended): a concrete non-PDF filename. -/
theorem non_pdf_rejection_witness :
    ((".pdf".toList).isSuffixOf "scan.png".data) = false ∧
    (ocr_pdf "scan.png" false (HttpEnv.exn "e") (HttpEnv.exn "e2")).status = 400 :=
  ⟨rfl, (non_pdf_rejection "scan.png" "x.pdf" false (HttpEnv.exn "e")
    (HttpEnv.exn "e2") (HttpEnv.exn "e3") pcEmpty true rfl).1⟩
